import Mathlib

/-!
Shallow embedding of `src/scrap.py` (a deployment script that packages a
Lambda handler, upserts the function, grants an S3 invoke permission and
registers an S3 object-created notification rule), together with theorems
about the embedded operations.

External provider calls (the boto3 lambda and s3 clients) are modelled as
oracles: each call site is given a fixed `Except`-valued response, and the
embedded functions additionally return the trace of calls they made with
the exact arguments the source passes.
-/

namespace Deploy

/-! ## Errors

`botocore.exceptions.ClientError` carries an error code; any other
exception type (which the script never catches) is `fatal`. -/

inductive AwsError where
  | clientError (code : String)
  | fatal (msg : String)
deriving DecidableEq, Repr

/-! ## S3 notification configuration data model

Mirrors the dictionaries exchanged with
`get_bucket_notification_configuration` /
`put_bucket_notification_configuration`.  Optional dictionary keys are
`Option`; `lambdaFunctionArn` is `Option` because the source reads it with
`c.get("LambdaFunctionArn")`, which yields `None` when the key is absent. -/

structure FilterRule where
  name : String
  value : String
deriving DecidableEq, Repr

/-- The `Filter = {"Key": {"FilterRules": ...}}` object. -/
structure S3KeyFilter where
  filterRules : List FilterRule
deriving DecidableEq, Repr

structure LambdaFunctionConfiguration where
  lambdaFunctionArn : Option String
  events : List String
  filter : Option S3KeyFilter
deriving DecidableEq, Repr

structure TopicConfiguration where
  topicArn : String
  events : List String
deriving DecidableEq, Repr

structure QueueConfiguration where
  queueArn : String
  events : List String
deriving DecidableEq, Repr

/-- A bucket notification configuration object: each key may be absent. -/
structure NotificationConfiguration where
  lambdaFunctionConfigurations : Option (List LambdaFunctionConfiguration)
  topicConfigurations : Option (List TopicConfiguration)
  queueConfigurations : Option (List QueueConfiguration)
deriving DecidableEq, Repr

/-- Python truthiness of an optional string argument (`if prefix:`):
`None` and the empty string are falsy. -/
def truthy : Option String → Bool
  | none => false
  | some s => decide (s ≠ "")

/-- The `filters` list built by `configure_s3_notification` (lines 72-76):
a `prefix` rule when the prefix argument is truthy, then a `suffix` rule
when the suffix argument is truthy. -/
def buildFilterRules (pfx sfx : Option String) : List FilterRule :=
  (match pfx with
   | some p => if p ≠ "" then [⟨"prefix", p⟩] else []
   | none => []) ++
  (match sfx with
   | some s => if s ≠ "" then [⟨"suffix", s⟩] else []
   | none => [])

/-- The `lambda_config` dictionary built by `configure_s3_notification`
(lines 78-83): target ARN, object-created events, and a `Filter` key only
when the filter list is nonempty. -/
def newLambdaConfig (lambda_arn : String) (pfx sfx : Option String) :
    LambdaFunctionConfiguration :=
  let filters := buildFilterRules pfx sfx
  { lambdaFunctionArn := some lambda_arn
    events := ["s3:ObjectCreated:*"]
    filter := if filters = [] then none else some ⟨filters⟩ }

/-- `configure_s3_notification` (lines 68-94) as a pure function from the
configuration returned by `get_bucket_notification_configuration` to the
`NotificationConfiguration` argument passed to
`put_bucket_notification_configuration`.  The written object is
`{"LambdaFunctionConfigurations": existing}`: it has no topic or queue
key. -/
def configure_s3_notification (cfg : NotificationConfiguration)
    (lambda_arn : String) (pfx sfx : Option String) :
    NotificationConfiguration :=
  let existing := cfg.lambdaFunctionConfigurations.getD []
  let kept := existing.filter
    (fun c => decide (c.lambdaFunctionArn ≠ some lambda_arn))
  { lambdaFunctionConfigurations :=
      some (kept ++ [newLambdaConfig lambda_arn pfx sfx])
    topicConfigurations := none
    queueConfigurations := none }

/-- Whether the filter of a rule contains a filter rule with the given
name. -/
def hasFilterRuleNamed (r : LambdaFunctionConfiguration) (n : String) :
    Bool :=
  match r.filter with
  | none => false
  | some f => f.filterRules.any (fun fr => fr.name == n)

/-! ## Lambda client call arguments

One structure per boto3 call the script makes, holding exactly the keyword
arguments the source passes.  The zip payload is a byte list. -/

/-- The `Environment` keyword argument: `{"Variables": env} if env else {}`
distinguishes the empty object from a `Variables` wrapper. -/
inductive EnvArg where
  | empty
  | variables (vars : List (String × String))
deriving DecidableEq, Repr

structure UpdateCodeArgs where
  functionName : String
  zipFile : List Nat
  publish : Bool
deriving DecidableEq, Repr

structure UpdateConfigArgs where
  functionName : String
  handler : String
  runtime : String
  role : String
  timeout : Nat
  memorySize : Nat
  environment : EnvArg
deriving DecidableEq, Repr

structure CreateFunctionArgs where
  functionName : String
  runtime : String
  role : String
  handler : String
  codeZipFile : List Nat
  timeout : Nat
  memorySize : Nat
  publish : Bool
  environment : EnvArg
deriving DecidableEq, Repr

structure AddPermissionArgs where
  functionName : String
  statementId : String
  action : String
  principal : String
  sourceArn : String
deriving DecidableEq, Repr

/-- A call made on the lambda client, with the arguments passed. -/
inductive LambdaCall where
  | updateCode (a : UpdateCodeArgs)
  | updateConfig (a : UpdateConfigArgs)
  | createFunction (a : CreateFunctionArgs)
  | addPermission (a : AddPermissionArgs)
deriving DecidableEq, Repr

/-- Oracle for the lambda client: the outcome of each call the script may
make.  Each call site is reached at most once per run, so a fixed response
per call site is fully general.  A successful `update_function_code` or
`create_function` response is reduced to the `FunctionArn` field, the only
one the script reads. -/
structure LambdaApi where
  onUpdateCode : Except AwsError String
  onUpdateConfig : Except AwsError Unit
  onCreate : Except AwsError String
  onAddPermission : Except AwsError Unit

/-- The `Environment=...` expression `{"Variables": env} if env else {}`
(lines 33 and 48): a Python dict is falsy exactly when empty. -/
def environmentField (env : List (String × String)) : EnvArg :=
  if env = [] then EnvArg.empty else EnvArg.variables env

/-- `upsert_lambda` (lines 17-50): try `update_function_code` then
`update_function_configuration`; the `except` clause catches only
`ClientError`, re-raises unless the code is `ResourceNotFoundException`,
and otherwise falls back to `create_function`.  Returns the outcome
(`FunctionArn` on success, the propagated error otherwise) paired with the
trace of calls made. -/
def upsert_lambda (api : LambdaApi) (function_name role_arn : String)
    (zip_bytes : List Nat) (region : String)
    (env : List (String × String)) :
    Except AwsError String × List LambdaCall :=
  let codeArgs : UpdateCodeArgs := ⟨function_name, zip_bytes, true⟩
  let cfgArgs : UpdateConfigArgs :=
    ⟨function_name, "lambda_function.lambda_handler", "python3.12",
      role_arn, 30, 256, environmentField env⟩
  let createArgs : CreateFunctionArgs :=
    ⟨function_name, "python3.12", role_arn,
      "lambda_function.lambda_handler", zip_bytes, 30, 256, true,
      environmentField env⟩
  let fallback : AwsError → List LambdaCall →
      Except AwsError String × List LambdaCall := fun e trace =>
    match e with
    | AwsError.clientError code =>
      if code ≠ "ResourceNotFoundException" then
        (Except.error e, trace)
      else
        match api.onCreate with
        | Except.ok arn2 =>
          (Except.ok arn2, trace ++ [LambdaCall.createFunction createArgs])
        | Except.error e2 =>
          (Except.error e2, trace ++ [LambdaCall.createFunction createArgs])
    | AwsError.fatal _ => (Except.error e, trace)
  match api.onUpdateCode with
  | Except.ok arn =>
    match api.onUpdateConfig with
    | Except.ok _ =>
      (Except.ok arn,
        [LambdaCall.updateCode codeArgs, LambdaCall.updateConfig cfgArgs])
    | Except.error e =>
      fallback e
        [LambdaCall.updateCode codeArgs, LambdaCall.updateConfig cfgArgs]
  | Except.error e => fallback e [LambdaCall.updateCode codeArgs]

/-- `add_invoke_permission` (lines 52-66): `add_permission`, treating a
`ResourceConflictException` `ClientError` as success; other `ClientError`
codes are re-raised, and non-`ClientError` exceptions are not caught. -/
def add_invoke_permission (api : LambdaApi)
    (function_name bucket_arn : String)
    (statement_id : String := "AllowS3Invoke") :
    Except AwsError Unit × List LambdaCall :=
  let args : AddPermissionArgs :=
    ⟨function_name, statement_id, "lambda:InvokeFunction",
      "s3.amazonaws.com", bucket_arn⟩
  match api.onAddPermission with
  | Except.ok _ => (Except.ok (), [LambdaCall.addPermission args])
  | Except.error (AwsError.clientError code) =>
    if code = "ResourceConflictException" then
      (Except.ok (), [LambdaCall.addPermission args])
    else
      (Except.error (AwsError.clientError code),
        [LambdaCall.addPermission args])
  | Except.error (AwsError.fatal m) =>
    (Except.error (AwsError.fatal m), [LambdaCall.addPermission args])

/-- Model of the external provider endpoint behind `add_permission`, used
only
to state the call-twice property: the provider keeps the set of granted
statement ids and rejects a duplicate statement id with a
`ResourceConflictException` (the "statement already exists" conflict the
source comments on). -/
def providerAddPermission (granted : List String) (sid : String) :
    Except AwsError Unit × List String :=
  if sid ∈ granted then
    (Except.error (AwsError.clientError "ResourceConflictException"),
      granted)
  else (Except.ok (), sid :: granted)

/-- Two successive runs of `add_invoke_permission` with the same statement
id against the provider model, returning both outcomes. -/
def addPermissionTwice (base : LambdaApi) (granted : List String)
    (function_name bucket_arn sid : String) :
    Except AwsError Unit × Except AwsError Unit :=
  let r1 := providerAddPermission granted sid
  let a1 := (add_invoke_permission { base with onAddPermission := r1.1 }
    function_name bucket_arn sid).1
  let r2 := providerAddPermission r1.2 sid
  let a2 := (add_invoke_permission { base with onAddPermission := r2.1 }
    function_name bucket_arn sid).1
  (a1, a2)

/-! ## The command line entry point -/

/-- The parsed command line arguments (lines 97-107).  Flags with default
`None` are `Option String`; `--prefix` and `--suffix` are `pfx`/`sfx`. -/
structure Args where
  bucket : String
  function : String
  role_arn : String
  region : String
  pfx : Option String
  sfx : Option String
  sns_topic_arn : Option String
  slack_webhook_url : Option String
  file : String
deriving DecidableEq, Repr

/-- The `env` dict built by `main` (lines 119-123): each variable is added
only when its flag value is truthy. -/
def buildEnv (a : Args) : List (String × String) :=
  (match a.sns_topic_arn with
   | some v => if v ≠ "" then [("SNS_TOPIC_ARN", v)] else []
   | none => []) ++
  (match a.slack_webhook_url with
   | some v => if v ≠ "" then [("SLACK_WEBHOOK_URL", v)] else []
   | none => [])

/-- An observable step of a `main` run: the local packaging step and every
provider API call, in order. -/
inductive Step where
  | package (file : String)
  | lambdaApiCall (c : LambdaCall)
  | s3GetNotification (bucket : String)
  | s3PutNotification (bucket : String) (cfg : NotificationConfiguration)
deriving DecidableEq, Repr

/-- Outcome of a `main` run: process exit status, the ordered steps
performed, and the lines printed. -/
structure MainResult where
  exitCode : Nat
  steps : List Step
  stderrLines : List String
  stdoutLines : List String
deriving DecidableEq, Repr

/-- `main` (lines 96-133).  `fileExists` is `os.path.exists(args.file)`;
`zipOf` stands for the library-backed `zip_bytes` packager (its output
bytes are opaque to every claim); `api` is the lambda client oracle and
`bucketCfg` the configuration the s3 client returns from
`get_bucket_notification_configuration` (the two s3 calls themselves are
modelled as succeeding).  An uncaught exception terminates the process
with a traceback and exit status 1. -/
def main (a : Args) (fileExists : Bool) (zipOf : String → List Nat)
    (api : LambdaApi) (bucketCfg : NotificationConfiguration) :
    MainResult :=
  if !fileExists then
    { exitCode := 1, steps := [],
      stderrLines := ["Missing " ++ a.file], stdoutLines := [] }
  else
    let code_zip := zipOf a.file
    let env := buildEnv a
    let upsertRes :=
      upsert_lambda api a.function a.role_arn code_zip a.region env
    let steps0 :=
      Step.package a.file :: upsertRes.2.map Step.lambdaApiCall
    match upsertRes.1 with
    | Except.error _ =>
      { exitCode := 1, steps := steps0,
        stderrLines := ["Traceback (most recent call last):"],
        stdoutLines := [] }
    | Except.ok lambda_arn =>
      let permRes :=
        add_invoke_permission api a.function ("arn:aws:s3:::" ++ a.bucket)
      let steps1 := steps0 ++ permRes.2.map Step.lambdaApiCall
      match permRes.1 with
      | Except.error _ =>
        { exitCode := 1, steps := steps1,
          stderrLines := ["Traceback (most recent call last):"],
          stdoutLines := [] }
      | Except.ok _ =>
        let written :=
          configure_s3_notification bucketCfg lambda_arn a.pfx a.sfx
        { exitCode := 0
          steps := steps1 ++
            [Step.s3GetNotification a.bucket,
              Step.s3PutNotification a.bucket written]
          stderrLines := []
          stdoutLines :=
            ["Done.", "Lambda ARN: " ++ lambda_arn,
              "S3 bucket " ++ a.bucket ++ " now triggers " ++
                a.function ++ " on ObjectCreated events."] }

/-! ## Auxiliary predicates used by the theorems -/

/-- The update path of `upsert_lambda` raises `e`: either
`update_function_code` raises it, or `update_function_code` succeeds and
`update_function_configuration` raises it. -/
def updateRaises (api : LambdaApi) (e : AwsError) : Prop :=
  api.onUpdateCode = Except.error e ∨
  ((∃ a, api.onUpdateCode = Except.ok a) ∧
    api.onUpdateConfig = Except.error e)

/-- A lambda call requests `Publish=True` when it is a call that carries a
`Publish` argument at all. -/
def publishFlagOk : LambdaCall → Bool
  | LambdaCall.updateCode a => a.publish
  | LambdaCall.createFunction a => a.publish
  | _ => true

/-- A prior configuration holding one topic rule, one queue rule and no
lambda rules, used to exhibit the clobbering of non-lambda rules. -/
def priorCfgWithTopicAndQueue : NotificationConfiguration :=
  { lambdaFunctionConfigurations := none
    topicConfigurations :=
      some [⟨"arn:aws:sns:us-east-1:123456789012:alerts",
        ["s3:ObjectCreated:*"]⟩]
    queueConfigurations :=
      some [⟨"arn:aws:sqs:us-east-1:123456789012:q",
        ["s3:ObjectCreated:*"]⟩] }

/-! ## Claim theorems -/

/-- C2: for every prior configuration and every function ARN, the
configuration written by `configure_s3_notification` holds exactly one
lambda rule whose `LambdaFunctionArn` equals that ARN; in particular a
second application with the same ARN leaves exactly one such rule and no
duplicates. -/
theorem configureLeavesExactlyOneRuleForArn
    (cfg : NotificationConfiguration) (arn : String)
    (pfx sfx : Option String) :
    ((configure_s3_notification cfg arn pfx
        sfx).lambdaFunctionConfigurations.getD []).countP
      (fun r => decide (r.lambdaFunctionArn = some arn)) = 1 := by
  have h0 : ((cfg.lambdaFunctionConfigurations.getD []).filter
      (fun c => decide (c.lambdaFunctionArn ≠ some arn))).countP
      (fun r => decide (r.lambdaFunctionArn = some arn)) = 0 := by
    refine List.countP_eq_zero.mpr ?_
    intro r hr
    have h2 := (List.mem_filter.mp hr).2
    simp only [decide_eq_true_eq] at h2 ⊢
    exact h2
  simp [configure_s3_notification, List.countP_append, h0, newLambdaConfig,
    List.countP_cons]

/-- C5: when the handler file does not exist, `main` exits with status 1
after printing a message to stderr, having performed no packaging step and
no provider API call. -/
theorem mainMissingFileExitsBeforeAnyCall (a : Args)
    (zipOf : String → List Nat) (api : LambdaApi)
    (bucketCfg : NotificationConfiguration) :
    (main a false zipOf api bucketCfg).exitCode = 1 ∧
    (main a false zipOf api bucketCfg).steps = [] ∧
    (main a false zipOf api bucketCfg).stderrLines =
      ["Missing " ++ a.file] := by
  refine ⟨rfl, rfl, rfl⟩

/-- C8: every run of `upsert_lambda` passes `Publish=True` on each call
that carries a `Publish` argument (`update_function_code` and
`create_function` alike), and the trace always holds the
`update_function_code` call with `Publish=True`. -/
theorem upsertAlwaysPublishes (api : LambdaApi) (fn role : String)
    (zip : List Nat) (region : String) (env : List (String × String)) :
    (upsert_lambda api fn role zip region env).2.all publishFlagOk =
      true ∧
    LambdaCall.updateCode ⟨fn, zip, true⟩ ∈
      (upsert_lambda api fn role zip region env).2 := by
  obtain ⟨uc, ucfg, cr, ap⟩ := api
  rcases uc with e | arn
  · rcases e with c | m
    · by_cases hc : c = "ResourceNotFoundException"
      · subst hc
        rcases cr with e2 | arn2 <;>
          simp [upsert_lambda, publishFlagOk]
      · simp [upsert_lambda, hc, publishFlagOk]
    · simp [upsert_lambda, publishFlagOk]
  · rcases ucfg with e | u
    · rcases e with c | m
      · by_cases hc : c = "ResourceNotFoundException"
        · subst hc
          rcases cr with e2 | arn2 <;>
            simp [upsert_lambda, publishFlagOk]
        · simp [upsert_lambda, hc, publishFlagOk]
      · simp [upsert_lambda, publishFlagOk]
    · simp [upsert_lambda, publishFlagOk]

/-- C1, counterexample: with a prior configuration holding a topic rule
and a queue rule, the configuration written back does not carry them
unchanged — the written object has no topic or queue key at all. -/
theorem configureClobbersTopicAndQueueRules :
    ¬ (((configure_s3_notification priorCfgWithTopicAndQueue
          "arn:aws:lambda:us-east-1:123456789012:function:fn" none
          none).topicConfigurations =
        priorCfgWithTopicAndQueue.topicConfigurations) ∧
      ((configure_s3_notification priorCfgWithTopicAndQueue
          "arn:aws:lambda:us-east-1:123456789012:function:fn" none
          none).queueConfigurations =
        priorCfgWithTopicAndQueue.queueConfigurations)) := by
  intro h
  exact Option.noConfusion h.1

/-- C1, amended: `configure_s3_notification` carries every prior lambda
rule not targeting the given function ARN unchanged into the written
configuration, but the written configuration holds only
`LambdaFunctionConfigurations`: prior topic and queue rules are dropped
rather than written back. -/
theorem configurePreservesOnlyOtherLambdaRules
    (cfg : NotificationConfiguration) (arn : String)
    (pfx sfx : Option String) :
    (∀ r ∈ cfg.lambdaFunctionConfigurations.getD [],
      r.lambdaFunctionArn ≠ some arn →
      r ∈ (configure_s3_notification cfg arn
        pfx sfx).lambdaFunctionConfigurations.getD []) ∧
    (configure_s3_notification cfg arn pfx sfx).topicConfigurations =
      none ∧
    (configure_s3_notification cfg arn pfx sfx).queueConfigurations =
      none := by
  refine ⟨?_, rfl, rfl⟩
  intro r hr hne
  exact List.mem_append_left _
    (List.mem_filter.mpr ⟨hr, decide_eq_true hne⟩)

/-- C1, witness for the amended theorem at a concrete configuration. -/
theorem configurePreservesOnlyOtherLambdaRules_witness :
    (⟨some "arn:other", ["s3:ObjectCreated:*"], none⟩ :
        LambdaFunctionConfiguration) ∈
      (configure_s3_notification
        { lambdaFunctionConfigurations :=
            some [⟨some "arn:other", ["s3:ObjectCreated:*"], none⟩]
          topicConfigurations := none
          queueConfigurations := none }
        "arn:target" none none).lambdaFunctionConfigurations.getD [] :=
  (configurePreservesOnlyOtherLambdaRules
      { lambdaFunctionConfigurations :=
          some [⟨some "arn:other", ["s3:ObjectCreated:*"], none⟩]
        topicConfigurations := none
        queueConfigurations := none }
      "arn:target" none none).1 _ (by decide) (by decide)

/-- C6, counterexample: with `--prefix ""` the prefix argument is given
(`some ""`) yet the appended rule carries no prefix filter rule — the
source tests Python truthiness, not presence. -/
theorem givenEmptyPrefixYieldsNoFilterRule :
    ¬ ((hasFilterRuleNamed
          (newLambdaConfig
            "arn:aws:lambda:us-east-1:123456789012:function:fn"
            (some "") none) "prefix" = true) ↔
        ((some "" : Option String).isSome = true)) := by
  decide

/-- C6, amended: the rule appended by `configure_s3_notification`
subscribes exactly to object-creation events, targets the given function
ARN, carries a prefix (resp. suffix) filter rule exactly when the prefix
(resp. suffix) argument is truthy — not `None` and not empty — and
carries no `Filter` key at all when neither is truthy; this rule is the
last entry of the written lambda-rule list. -/
theorem configureAppendedRuleShape (arn : String)
    (pfx sfx : Option String) :
    (newLambdaConfig arn pfx sfx).events = ["s3:ObjectCreated:*"] ∧
    (newLambdaConfig arn pfx sfx).lambdaFunctionArn = some arn ∧
    (hasFilterRuleNamed (newLambdaConfig arn pfx sfx) "prefix" =
      truthy pfx) ∧
    (hasFilterRuleNamed (newLambdaConfig arn pfx sfx) "suffix" =
      truthy sfx) ∧
    (truthy pfx = false → truthy sfx = false →
      (newLambdaConfig arn pfx sfx).filter = none) ∧
    (∀ cfg : NotificationConfiguration,
      ((configure_s3_notification cfg arn pfx
          sfx).lambdaFunctionConfigurations.getD []).getLast? =
        some (newLambdaConfig arn pfx sfx)) := by
  refine ⟨rfl, rfl, ?_, ?_, ?_, ?_⟩
  · rcases pfx with _ | p <;> rcases sfx with _ | s <;>
      simp [newLambdaConfig, buildFilterRules, hasFilterRuleNamed, truthy]
    · by_cases hs : s = "" <;> simp [hs]
    · by_cases hp : p = "" <;> simp [hp]
    · by_cases hp : p = "" <;> by_cases hs : s = "" <;> simp [hp, hs]
  · rcases pfx with _ | p <;> rcases sfx with _ | s <;>
      simp [newLambdaConfig, buildFilterRules, hasFilterRuleNamed, truthy]
    · by_cases hs : s = "" <;> simp [hs]
    · by_cases hp : p = "" <;> simp [hp]
    · by_cases hp : p = "" <;> by_cases hs : s = "" <;> simp [hp, hs]
  · intro hp hs
    rcases pfx with _ | p <;> rcases sfx with _ | s <;>
      simp [truthy] at hp hs <;>
      simp [newLambdaConfig, buildFilterRules, *]
  · intro cfg
    simp [configure_s3_notification]

/-- C6, witness for the amended theorem: with both filter arguments
absent the appended rule has no `Filter` key. -/
theorem configureAppendedRuleShape_witness :
    (newLambdaConfig "arn:fn" none none).filter = none :=
  (configureAppendedRuleShape "arn:fn" none none).2.2.2.2.1 rfl rfl

/-- C3: `upsert_lambda` falls back to `create_function` exactly when the
update path raises a `ClientError` with code `ResourceNotFoundException`;
a `ClientError` with any other code, and any non-`ClientError` exception,
propagates; any error raised by `create_function` itself propagates; and
on both the update path and the create path the `FunctionArn` of the
successful response is returned. -/
theorem upsertErrorHandling (api : LambdaApi) (fn role : String)
    (zip : List Nat) (region : String) (env : List (String × String)) :
    ((∃ ca, LambdaCall.createFunction ca ∈
        (upsert_lambda api fn role zip region env).2) ↔
      updateRaises api
        (AwsError.clientError "ResourceNotFoundException")) ∧
    (∀ c, c ≠ "ResourceNotFoundException" →
      updateRaises api (AwsError.clientError c) →
      (upsert_lambda api fn role zip region env).1 =
        Except.error (AwsError.clientError c)) ∧
    (∀ m, updateRaises api (AwsError.fatal m) →
      (upsert_lambda api fn role zip region env).1 =
        Except.error (AwsError.fatal m)) ∧
    (∀ e, updateRaises api
        (AwsError.clientError "ResourceNotFoundException") →
      api.onCreate = Except.error e →
      (upsert_lambda api fn role zip region env).1 = Except.error e) ∧
    (∀ arn, api.onUpdateCode = Except.ok arn →
      (∃ u, api.onUpdateConfig = Except.ok u) →
      (upsert_lambda api fn role zip region env).1 = Except.ok arn) ∧
    (∀ arn, updateRaises api
        (AwsError.clientError "ResourceNotFoundException") →
      api.onCreate = Except.ok arn →
      (upsert_lambda api fn role zip region env).1 = Except.ok arn) := by
  obtain ⟨uc, ucfg, cr, ap⟩ := api
  rcases uc with e | arn
  · rcases e with c | m
    · by_cases hc : c = "ResourceNotFoundException"
      · subst hc
        rcases cr with e2 | arn2 <;>
          simp [upsert_lambda, updateRaises] <;> try aesop
      · simp [upsert_lambda, updateRaises, hc]
        try aesop
    · simp [upsert_lambda, updateRaises]
      try aesop
  · rcases ucfg with e | u
    · rcases e with c | m
      · by_cases hc : c = "ResourceNotFoundException"
        · subst hc
          rcases cr with e2 | arn2 <;>
            simp [upsert_lambda, updateRaises] <;> try aesop
        · simp [upsert_lambda, updateRaises, hc]
          try aesop
      · simp [upsert_lambda, updateRaises]
        try aesop
    · simp [upsert_lambda, updateRaises]
      try aesop

/-- C3, witness: a `ClientError` whose code is not
`ResourceNotFoundException` propagates unchanged. -/
theorem upsertErrorHandling_witness :
    (upsert_lambda
      ⟨Except.error (AwsError.clientError "AccessDeniedException"),
        Except.ok (), Except.ok "arn:new", Except.ok ()⟩
      "fn" "role" [] "us-east-1" []).1 =
      Except.error (AwsError.clientError "AccessDeniedException") :=
  (upsertErrorHandling
    ⟨Except.error (AwsError.clientError "AccessDeniedException"),
      Except.ok (), Except.ok "arn:new", Except.ok ()⟩
    "fn" "role" [] "us-east-1" []).2.1
    "AccessDeniedException" (by decide) (Or.inl rfl)

/-- C7: when the update path raises `ResourceNotFoundException`,
`create_function` is called with runtime `python3.12`, handler
`lambda_function.lambda_handler`, the given role ARN, `Timeout` 30,
`MemorySize` 256, `Publish=True`, the given zip payload and the given
environment mapping. -/
theorem upsertCreateParams (api : LambdaApi) (fn role : String)
    (zip : List Nat) (region : String) (env : List (String × String))
    (h : updateRaises api
      (AwsError.clientError "ResourceNotFoundException")) :
    LambdaCall.createFunction
      ⟨fn, "python3.12", role, "lambda_function.lambda_handler", zip,
        30, 256, true, environmentField env⟩ ∈
      (upsert_lambda api fn role zip region env).2 := by
  rcases h with h | ⟨⟨a, ha⟩, h⟩
  · rcases hcr : api.onCreate with e2 | arn2 <;>
      simp [upsert_lambda, h, hcr]
  · rcases hcr : api.onCreate with e2 | arn2 <;>
      simp [upsert_lambda, h, ha, hcr]

/-- C7, witness at a concrete client that reports the function missing. -/
theorem upsertCreateParams_witness :
    LambdaCall.createFunction
      ⟨"fn", "python3.12", "role", "lambda_function.lambda_handler",
        [1, 2], 30, 256, true, EnvArg.empty⟩ ∈
      (upsert_lambda
        ⟨Except.error (AwsError.clientError "ResourceNotFoundException"),
          Except.ok (), Except.ok "arn:new", Except.ok ()⟩
        "fn" "role" [1, 2] "us-east-1" []).2 := by
  have h := upsertCreateParams
    ⟨Except.error (AwsError.clientError "ResourceNotFoundException"),
      Except.ok (), Except.ok "arn:new", Except.ok ()⟩
    "fn" "role" [1, 2] "us-east-1" [] (Or.inl rfl)
  simpa [environmentField] using h

/-- C9: the fallback also covers a failure of the second update call:
when `update_function_code` succeeds but `update_function_configuration`
raises `ResourceNotFoundException`, `create_function` is still called. -/
theorem upsertFallbackAfterConfigFailure (api : LambdaApi)
    (fn role : String) (zip : List Nat) (region : String)
    (env : List (String × String)) (arn : String)
    (h1 : api.onUpdateCode = Except.ok arn)
    (h2 : api.onUpdateConfig =
      Except.error (AwsError.clientError "ResourceNotFoundException")) :
    LambdaCall.createFunction
      ⟨fn, "python3.12", role, "lambda_function.lambda_handler", zip,
        30, 256, true, environmentField env⟩ ∈
      (upsert_lambda api fn role zip region env).2 := by
  rcases hcr : api.onCreate with e2 | arn2 <;>
    simp [upsert_lambda, h1, h2, hcr]

/-- C9, witness at a concrete client failing only the second update
call. -/
theorem upsertFallbackAfterConfigFailure_witness :
    LambdaCall.createFunction
      ⟨"fn", "python3.12", "role", "lambda_function.lambda_handler",
        [1, 2], 30, 256, true, EnvArg.empty⟩ ∈
      (upsert_lambda
        ⟨Except.ok "arn:up",
          Except.error (AwsError.clientError "ResourceNotFoundException"),
          Except.ok "arn:new", Except.ok ()⟩
        "fn" "role" [1, 2] "us-east-1" []).2 := by
  have h := upsertFallbackAfterConfigFailure
    ⟨Except.ok "arn:up",
      Except.error (AwsError.clientError "ResourceNotFoundException"),
      Except.ok "arn:new", Except.ok ()⟩
    "fn" "role" [1, 2] "us-east-1" [] "arn:up" rfl rfl
  simpa [environmentField] using h

/-- C4: `add_invoke_permission` returns normally on success and on a
`ResourceConflictException` `ClientError`; a `ClientError` with any other
code propagates; and two successive calls with the same statement id
against the provider model (which reports a conflict on a duplicate
statement id) both return normally. -/
theorem permissionConflictIsSuccess (api : LambdaApi)
    (fn bucket_arn sid : String) (base : LambdaApi)
    (granted : List String) :
    ((∃ u, api.onAddPermission = Except.ok u) →
      (add_invoke_permission api fn bucket_arn sid).1 = Except.ok ()) ∧
    (api.onAddPermission =
        Except.error (AwsError.clientError "ResourceConflictException") →
      (add_invoke_permission api fn bucket_arn sid).1 = Except.ok ()) ∧
    (∀ c, c ≠ "ResourceConflictException" →
      api.onAddPermission = Except.error (AwsError.clientError c) →
      (add_invoke_permission api fn bucket_arn sid).1 =
        Except.error (AwsError.clientError c)) ∧
    addPermissionTwice base granted fn bucket_arn sid =
      (Except.ok (), Except.ok ()) := by
  refine ⟨?_, ?_, ?_, ?_⟩
  · rintro ⟨u, hu⟩
    simp [add_invoke_permission, hu]
  · intro h
    simp [add_invoke_permission, h]
  · intro c hc h
    simp [add_invoke_permission, h, hc]
  · by_cases hg : sid ∈ granted <;>
      simp [addPermissionTwice, providerAddPermission, hg,
        add_invoke_permission]

/-- C4, witness: a conflict response is treated as success. -/
theorem permissionConflictIsSuccess_witness :
    (add_invoke_permission
      ⟨Except.ok "", Except.ok (), Except.ok "",
        Except.error (AwsError.clientError "ResourceConflictException")⟩
      "fn" "arn:aws:s3:::bucket" "AllowS3Invoke").1 = Except.ok () :=
  (permissionConflictIsSuccess
    ⟨Except.ok "", Except.ok (), Except.ok "",
      Except.error (AwsError.clientError "ResourceConflictException")⟩
    "fn" "arn:aws:s3:::bucket" "AllowS3Invoke"
    ⟨Except.ok "", Except.ok (), Except.ok "", Except.ok ()⟩ []).2.1 rfl

/-- A lambda call carries `v` as its `Environment` argument when it is a
call that carries an `Environment` argument at all. -/
def envArgIs (v : EnvArg) : LambdaCall → Bool
  | LambdaCall.updateConfig a => a.environment == v
  | LambdaCall.createFunction a => a.environment == v
  | _ => true

/-- Every call in an `upsert_lambda` trace that carries an `Environment`
argument carries `environmentField env`. -/
theorem upsertEnvArgAll (api : LambdaApi) (fn role : String)
    (zip : List Nat) (region : String) (env : List (String × String)) :
    (upsert_lambda api fn role zip region env).2.all
      (envArgIs (environmentField env)) = true := by
  obtain ⟨uc, ucfg, cr, ap⟩ := api
  rcases uc with e | arn
  · rcases e with c | m
    · by_cases hc : c = "ResourceNotFoundException"
      · subst hc
        rcases cr with e2 | arn2 <;> simp [upsert_lambda, envArgIs]
      · simp [upsert_lambda, hc, envArgIs]
    · simp [upsert_lambda, envArgIs]
  · rcases ucfg with e | u
    · rcases e with c | m
      · by_cases hc : c = "ResourceNotFoundException"
        · subst hc
          rcases cr with e2 | arn2 <;> simp [upsert_lambda, envArgIs]
        · simp [upsert_lambda, hc, envArgIs]
      · simp [upsert_lambda, envArgIs]
    · simp [upsert_lambda, envArgIs]

/-- C10: when neither `--sns-topic-arn` nor `--slack-webhook-url` is
supplied, the environment mapping built by `main` is empty and
`upsert_lambda` passes `Environment` equal to the empty object — not a
`Variables` wrapper around an empty mapping — on every call carrying an
`Environment` argument; the `Variables` wrapper is produced only from a
nonempty mapping. -/
theorem emptyEnvPassedAsEmptyObject (a : Args) (api : LambdaApi)
    (zip : List Nat)
    (h1 : a.sns_topic_arn = none) (h2 : a.slack_webhook_url = none) :
    buildEnv a = [] ∧
    environmentField (buildEnv a) = EnvArg.empty ∧
    (∀ ua, LambdaCall.updateConfig ua ∈
        (upsert_lambda api a.function a.role_arn zip a.region
          (buildEnv a)).2 →
      ua.environment = EnvArg.empty) ∧
    (∀ ca, LambdaCall.createFunction ca ∈
        (upsert_lambda api a.function a.role_arn zip a.region
          (buildEnv a)).2 →
      ca.environment = EnvArg.empty) ∧
    (∀ (env v : List (String × String)),
      environmentField env = EnvArg.variables v → env ≠ []) := by
  have hb : buildEnv a = [] := by simp [buildEnv, h1, h2]
  have hfield : environmentField (buildEnv a) = EnvArg.empty := by
    simp [hb, environmentField]
  have hall :=
    upsertEnvArgAll api a.function a.role_arn zip a.region (buildEnv a)
  rw [hfield] at hall
  refine ⟨hb, hfield, ?_, ?_, ?_⟩
  · intro ua hmem
    have h3 := List.all_eq_true.mp hall _ hmem
    simpa [envArgIs] using h3
  · intro ca hmem
    have h3 := List.all_eq_true.mp hall _ hmem
    simpa [envArgIs] using h3
  · intro env v hv hnil
    rw [hnil] at hv
    simp [environmentField] at hv

/-- C10, witness at a run with both notification flags absent. -/
theorem emptyEnvPassedAsEmptyObject_witness :
    buildEnv
        ⟨"bucket", "fn", "role", "us-east-1", none, none, none, none,
          "lambda_function.py"⟩ = [] ∧
    environmentField
        (buildEnv
          ⟨"bucket", "fn", "role", "us-east-1", none, none, none, none,
            "lambda_function.py"⟩) = EnvArg.empty :=
  ⟨(emptyEnvPassedAsEmptyObject
      ⟨"bucket", "fn", "role", "us-east-1", none, none, none, none,
        "lambda_function.py"⟩
      ⟨Except.ok "arn:up", Except.ok (), Except.ok "arn:new",
        Except.ok ()⟩ [] rfl rfl).1,
    (emptyEnvPassedAsEmptyObject
      ⟨"bucket", "fn", "role", "us-east-1", none, none, none, none,
        "lambda_function.py"⟩
      ⟨Except.ok "arn:up", Except.ok (), Except.ok "arn:new",
        Except.ok ()⟩ [] rfl rfl).2.1⟩

end Deploy
